import Mathlib

/-!
Shallow embedding of the youvit-form submission pipeline:
string normalization, the Google-Sheets reference-data gateway, the
submission normalizer (employee / store / notes checks), the spreadsheet
writer with its create-on-demand recovery path, the public POST handlers,
the authenticated GET listing, and the dynamic per-field validator derived
from a form schema.  Definitions are translated from the TypeScript source
(`src/app/api/submissions/route.ts`, its two in-repo variants, and
`src/components/forms/new-form-form.tsx`).
-/

/-! ## JavaScript string helpers

`normalizeValue` in `processSubmission` is
`value.replace(/\s+/g, " ").trim().toLowerCase()`.  We model the ASCII
fragment of JS whitespace, which covers every string the handlers compare.
-/

/-- The ASCII fragment of the JS `\s` class / `String.prototype.trim`. -/
def isJsWs (c : Char) : Bool :=
  c = ' ' || c = '\t' || c = '\n' || c = '\r' || c = '\x0b' || c = '\x0c'

/-- A whitespace char becomes a plain space, every other char is kept. -/
def normCh (c : Char) : Char :=
  if isJsWs c then ' ' else c

/-- `replace(/\s+/g, " ")` on a char list: each maximal whitespace run
collapses to a single `' '`. -/
def squeeze : List Char → List Char
  | [] => []
  | c :: rest =>
    match rest with
    | [] => [normCh c]
    | c2 :: _ =>
      if isJsWs c && isJsWs c2 then squeeze rest else normCh c :: squeeze rest

/-- `s.replace(/\s+/g, " ")`. -/
def collapseWs (s : String) : String := ⟨squeeze s.data⟩

/-- `String.prototype.trim` (ASCII whitespace fragment). -/
def jsTrim (s : String) : String :=
  ⟨((s.data.dropWhile isJsWs).reverse.dropWhile isJsWs).reverse⟩

/-- `s.toLowerCase()` (ASCII fragment). -/
def jsLower (s : String) : String := ⟨s.data.map Char.toLower⟩

/-- `normalizeValue` from `processSubmission`:
`value.replace(/\s+/g, " ").trim().toLowerCase()`. -/
def normalizeValue (value : String) : String := jsLower (jsTrim (collapseWs value))

/-! ## JavaScript values

Submission `data` is an untyped JSON bag (`z.record(z.string(), z.any())`),
so the handler meets arbitrary JS values.  Objects are modelled by the one
property the code reads, `.url`. -/

/-- A JS value as seen by the submission handlers. -/
inductive JsVal where
  | null
  | undef
  | str (s : String)
  | num (n : Int)
  | bool (b : Bool)
  | arr (xs : List JsVal)
  | obj (url : Option String)

/-- JS truthiness for the values above. -/
def jsTruthy : JsVal → Bool
  | .null => false
  | .undef => false
  | .str s => s ≠ ""
  | .num n => n ≠ 0
  | .bool b => b
  | .arr _ => true
  | .obj _ => true

/-- Reading `.url` off a JS value: only objects carry it. -/
def jsUrlProp : JsVal → Option String
  | .obj u => u
  | _ => none

/-- Element conversion used by `Array.prototype.join`:
null/undefined become the empty string. -/
def jsJoinElem : JsVal → String
  | .null => ""
  | .undef => ""
  | .str s => s
  | .num n => toString n
  | .bool b => if b then "true" else "false"
  | .arr xs => String.intercalate "," (xs.attach.map (fun a => jsJoinElem a.1))
  | .obj _ => "[object Object]"
decreasing_by
  have := List.sizeOf_lt_of_mem a.2
  simp only [JsVal.arr.sizeOf_spec]
  omega

/-- JS `String(v)` for the values the writer can meet. -/
def jsToString : JsVal → String
  | .null => "null"
  | .undef => "undefined"
  | .str s => s
  | .num n => toString n
  | .bool b => if b then "true" else "false"
  | .arr xs => String.intercalate "," (xs.map jsJoinElem)
  | .obj _ => "[object Object]"

/-- An absent key reads as `undefined`. -/
def jsOfOpt : Option JsVal → JsVal
  | none => .undef
  | some v => v

/-- `x || ''` then stringified, as used for the plain row cells. -/
def jsCellOrEmpty (o : Option JsVal) : String :=
  match o with
  | none => ""
  | some v => if jsTruthy v then jsToString v else ""

/-- `getFileUrl` from `addToGoogleSheets`:
```
if (!fileData) return '';
if (typeof fileData === 'string') return fileData;
if (Array.isArray(fileData) && fileData.length > 0) return fileData[0].url || '';
if (fileData.url) return fileData.url;
return '';
```
Reading `.url` off a `null` or `undefined` first array element throws a
TypeError (`.error ()` here); property access on any other value —
primitives are boxed — yields `undefined` for everything but objects.
The bare `fileData.url` probe can never throw: by then `fileData` is
truthy, hence neither `null` nor `undefined`. -/
def getFileUrl (fileData : JsVal) : Except Unit String :=
  if !jsTruthy fileData then .ok ""
  else
    match fileData with
    | .str s => .ok s
    | .arr (x :: _) =>
      match x with
      | .null => .error ()
      | .undef => .error ()
      | x =>
        .ok (match jsUrlProp x with
          | some u => if u ≠ "" then u else ""
          | none => "")
    | v =>
      .ok (match jsUrlProp v with
        | some u => if u ≠ "" then u else ""
        | none => "")

/-! ## Reference Data Gateway (`fetchAllowedSheetData`)

Environment variables are `string | undefined`; the guard
`!process.env.X` treats both `undefined` and `""` as missing. -/

/-- One row of the external `Employees` sheet (`row.get` may be undefined). -/
structure SheetEmployee where
  id : Option String := none
  name : Option String := none

/-- One row of the external `Stores` sheet. -/
structure SheetStore where
  id : Option String := none
  name : Option String := none
  location : Option String := none
  region : Option String := none
  manager : Option String := none

/-- Process-wide Google configuration read from the environment. -/
structure GoogleEnv where
  clientEmail : Option String := none
  privateKey : Option String := none
  spreadsheetId : Option String := none
  sheetsId : Option String := none

/-- The external spreadsheet document: which tabs exist and their rows. -/
structure SpreadsheetDoc where
  employeesSheet : Option (List SheetEmployee) := none
  storesSheet : Option (List SheetStore) := none

/-- JS truthiness of an optional env string (`undefined` and `""` are falsy). -/
def envTruthy : Option String → Bool
  | none => false
  | some s => s ≠ ""

/-- Result shape of `fetchAllowedSheetData`. -/
structure AllowedSheetData where
  employees : List SheetEmployee
  stores : List SheetStore

/-- `fetchAllowedSheetData` translated from the source: unneeded lists are
empty without touching the network; missing configuration or an absent
`Employees` / `Stores` tab throws. -/
def fetchAllowedSheetData (includeEmployees includeStores : Bool)
    (env : GoogleEnv) (doc : SpreadsheetDoc) : Except String AllowedSheetData :=
  if !includeEmployees && !includeStores then
    .ok ⟨[], []⟩
  else if !envTruthy env.clientEmail || !envTruthy env.privateKey
      || !envTruthy env.spreadsheetId then
    .error "Google Sheets configuration missing"
  else
    let empRes : Except String (List SheetEmployee) :=
      if includeEmployees then
        match doc.employeesSheet with
        | none => .error "Employees sheet not found"
        | some rows => .ok rows
      else .ok []
    match empRes with
    | .error e => .error e
    | .ok employees =>
      let storeRes : Except String (List SheetStore) :=
        if includeStores then
          match doc.storesSheet with
          | none => .error "Stores sheet not found"
          | some rows => .ok rows
        else .ok []
      match storeRes with
      | .error e => .error e
      | .ok stores => .ok ⟨employees, stores⟩

/-! ## Submission Normalizer (`processSubmission`, validation section) -/

/-- An HTTP error response `NextResponse.json({error}, {status})`. -/
structure HttpError where
  status : Nat
  msg : String
deriving DecidableEq, Repr

/-- The submission `data` bag, restricted to the keys the handlers read.
`none` models an absent key (it reads as `undefined`). -/
structure SubmissionDataRec where
  audit_date : Option JsVal := none
  employee_name : Option JsVal := none
  store_location : Option JsVal := none
  before_image : Option JsVal := none
  after_image : Option JsVal := none
  out_of_stock : Option JsVal := none
  notes : Option JsVal := none

/-- `employees.map(e => e.name).filter(Boolean).map(normalizeValue)` —
the normalized employee-name allow-list. -/
def allowedEmployeeNames (employees : List SheetEmployee) : List String :=
  ((employees.filterMap (·.name)).filter (fun n => n ≠ "")).map normalizeValue

/-- Truthy projection of an optional JS string (`!store.name` guard). -/
def optTruthy : Option String → Option String
  | none => none
  | some s => if s = "" then none else some s

/-- The entries one store row contributes to the allow-set: the normalized
bare name (if its trim is non-empty) and the normalized
`"{name} - {location}"` combination (if the location is present and both
trims are non-empty). -/
def storeAllowedEntries (store : SheetStore) : List String :=
  match optTruthy store.name with
  | none => []
  | some nm =>
    let tn := jsTrim nm
    (if tn ≠ "" then [normalizeValue tn] else []) ++
      (match optTruthy store.location with
       | none => []
       | some loc =>
         let tl := jsTrim loc
         if tn ≠ "" && tl ≠ "" then [normalizeValue (tn ++ " - " ++ tl)] else [])

/-- The `allowedStoreValues` set, built row by row exactly as the
`stores.forEach` loop does. -/
def allowedStoreValues (stores : List SheetStore) : List String :=
  stores.flatMap storeAllowedEntries

/-- The `employee_name` block of `processSubmission`: type check, trim,
non-empty check, allow-list membership; on success the trimmed raw value. -/
def employeeCheck (employees : List SheetEmployee) (v : JsVal) :
    Except HttpError String :=
  match v with
  | .str s =>
    let t := jsTrim s
    if t = "" then .error ⟨400, "Employee name is required"⟩
    else if (allowedEmployeeNames employees).contains (normalizeValue t) then .ok t
    else .error ⟨400, "Employee name must match an existing employee"⟩
  | _ => .error ⟨400, "Employee name must be a valid string"⟩

/-- The `store_location` block of `processSubmission`. -/
def storeCheck (stores : List SheetStore) (v : JsVal) : Except HttpError String :=
  match v with
  | .str s =>
    let t := jsTrim s
    if t = "" then .error ⟨400, "Store location is required"⟩
    else if (allowedStoreValues stores).contains (normalizeValue t) then .ok t
    else .error ⟨400, "Store location must match an existing store"⟩
  | _ => .error ⟨400, "Store location must be a valid string"⟩

/-- The `notes` block of `processSubmission`: must be a string and its trim
must be at most 200 characters; the trimmed value is stored. -/
def notesCheck (v : JsVal) : Except HttpError String :=
  match v with
  | .str s =>
    let t := jsTrim s
    if t.length > 200 then .error ⟨400, "Notes must be 200 characters or fewer"⟩
    else .ok t
  | _ => .error ⟨400, "Notes must be provided as text"⟩

/-- The validation/normalization section of `processSubmission`
(part_004 lines 238–354): when `employee_name` or `store_location` is
present the gateway is consulted (any gateway failure becomes the 500
"Failed to validate submission data" response), then each supplied field
is checked and replaced by its trimmed value. -/
def validateSubmissionData (env : GoogleEnv) (doc : SpreadsheetDoc)
    (d : SubmissionDataRec) : Except HttpError SubmissionDataRec :=
  let step1 : Except HttpError SubmissionDataRec :=
    if d.employee_name.isSome || d.store_location.isSome then
      match fetchAllowedSheetData d.employee_name.isSome d.store_location.isSome env doc with
      | .error _ => .error ⟨500, "Failed to validate submission data"⟩
      | .ok allowed =>
        let afterEmp : Except HttpError SubmissionDataRec :=
          match d.employee_name with
          | none => .ok d
          | some v =>
            match employeeCheck allowed.employees v with
            | .error e => .error e
            | .ok t => .ok { d with employee_name := some (.str t) }
        match afterEmp with
        | .error e => .error e
        | .ok dEmp =>
          match d.store_location with
          | none => .ok dEmp
          | some v =>
            match storeCheck allowed.stores v with
            | .error e => .error e
            | .ok t => .ok { dEmp with store_location := some (.str t) }
    else .ok d
  match step1 with
  | .error e => .error e
  | .ok d1 =>
    match d.notes with
    | none => .ok d1
    | some v =>
      match notesCheck v with
      | .error e => .error e
      | .ok t => .ok { d1 with notes := some (.str t) }

/-! ## Spreadsheet sink (`addToGoogleSheets`)

The external Sheets API is modelled as a state (does the `Submissions`
sheet exist, and its rows) plus an injectable fault per API call, so that
the bounded recovery path can be stated.  A failed append on a missing
sheet surfaces as the 400 / "Unable to parse range" class the code tests
for; any other failure is the `otherErr` class. -/

/-- Error classes the writer distinguishes: `badRange` is
`error.code === 400 || error.message.includes('Unable to parse range')`. -/
inductive SheetsApiError where
  | badRange
  | otherErr
deriving DecidableEq, Repr

/-- State of the destination spreadsheet: `none` while the `Submissions`
sheet does not exist, otherwise its rows. -/
structure SheetsState where
  sheet : Option (List (List String)) := none
deriving DecidableEq, Repr

/-- Injectable upstream faults, one per API call the writer can make. -/
structure SheetsFaults where
  appendFault : Option SheetsApiError := none
  addSheetFault : Bool := false
  writeFault : Bool := false
deriving DecidableEq, Repr

/-- `spreadsheets.values.append`: appends one row, failing with the
400/parse-range class when the target sheet does not exist. -/
def valuesAppend (st : SheetsState) (row : List String)
    (fault : Option SheetsApiError) : Except SheetsApiError SheetsState :=
  match fault with
  | some e => .error e
  | none =>
    match st.sheet with
    | none => .error .badRange
    | some rows => .ok ⟨some (rows ++ [row])⟩

/-- `spreadsheets.batchUpdate` with an `addSheet` request: creates the
empty sheet; a duplicate title is an upstream error. -/
def addSheetOp (st : SheetsState) (fault : Bool) : Except SheetsApiError SheetsState :=
  if fault then .error .otherErr
  else
    match st.sheet with
    | some _ => .error .otherErr
    | none => .ok ⟨some []⟩

/-- Writing a row at a 0-based index, padding with empty rows if needed. -/
def setRowAt : List (List String) → Nat → List String → List (List String)
  | _ :: tl, 0, row => row :: tl
  | [], 0, row => [row]
  | hd :: tl, n + 1, row => hd :: setRowAt tl n row
  | [], n + 1, row => [] :: setRowAt [] n row

/-- `spreadsheets.values.batchUpdate` writing `A1:I1` and `A2:I2`
(header then data) in one call. -/
def valuesBatchWrite (st : SheetsState) (header row : List String)
    (fault : Bool) : Except SheetsApiError SheetsState :=
  if fault then .error .otherErr
  else
    match st.sheet with
    | none => .error .badRange
    | some rows => .ok ⟨some (setRowAt (setRowAt rows 0 header) 1 row)⟩

/-- The fixed header row of the `Submissions` sheet, in the declared
column order A–I. -/
def sheetsHeaderRow : List String :=
  ["Timestamp", "Audit Date", "Employee Name", "Store Location",
   "Before Image", "After Image", "Out of Stock Items", "Notes", "Form Title"]

/-- `[...].join(', ')` or `v || ''` for the out-of-stock cell. -/
def outOfStockCell (o : Option JsVal) : String :=
  match o with
  | some (.arr xs) => String.intercalate ", " (xs.map jsJoinElem)
  | o => jsCellOrEmpty o

/-- The `rowData` array of `addToGoogleSheets`, columns A–I.  The
timestamp is produced by the server clock and is passed in.  A TypeError
thrown by either `getFileUrl` call (null/undefined first array element)
propagates out of the array literal. -/
def buildRowData (timestamp : String) (d : SubmissionDataRec)
    (formTitle : String) : Except Unit (List String) :=
  match getFileUrl (jsOfOpt d.before_image) with
  | .error e => .error e
  | .ok before =>
    match getFileUrl (jsOfOpt d.after_image) with
    | .error e => .error e
    | .ok after =>
      .ok [timestamp,
        jsCellOrEmpty d.audit_date,
        jsCellOrEmpty d.employee_name,
        jsCellOrEmpty d.store_location,
        before,
        after,
        outOfStockCell d.out_of_stock,
        jsCellOrEmpty d.notes,
        formTitle]

/-- `addToGoogleSheets` (route.ts): try a direct append; on the
400/parse-range class create the sheet and write header plus data in one
batch; on any other error, or a failure inside the recovery, the outer
catch returns `null`.  A TypeError while building `rowData` is caught by
the same outer catch, before any API call.  (The append response carries
no top-level `updatedRange`, so the returned range is always the
`Submissions!A:I` fallback.) -/
def addToGoogleSheets (env : GoogleEnv) (faults : SheetsFaults)
    (st : SheetsState) (timestamp : String) (d : SubmissionDataRec)
    (formTitle : String) : SheetsState × Option String :=
  if !(envTruthy env.spreadsheetId || envTruthy env.sheetsId) then (st, none)
  else
    match buildRowData timestamp d formTitle with
    | .error _ => (st, none)
    | .ok rowData =>
      match valuesAppend st rowData faults.appendFault with
      | .ok st' => (st', some "Submissions!A:I")
      | .error .badRange =>
        match addSheetOp st faults.addSheetFault with
        | .error _ => (st, none)
        | .ok st1 =>
          match valuesBatchWrite st1 sheetsHeaderRow rowData faults.writeFault with
          | .error _ => (st1, none)
          | .ok st2 => (st2, some "Submissions!A:I")
      | .error .otherErr => (st, none)

/-! ## Public POST handlers -/

/-- A parsed `submitFormSchema` body (`formId` string plus `data` bag). -/
structure PostBody where
  formId : String
  data : SubmissionDataRec

/-- Outcome of a POST handler: final sheet state, HTTP status, and the
`sheetsRange` of the 201 response. -/
structure PostOutcome where
  state : SheetsState
  status : Nat
  sheetsRange : Option String
deriving DecidableEq, Repr

/-- The deployed `POST /submissions` handler (route.ts `processSubmission`):
no authentication, no form lookup — the comment reads "For performance,
skip database check and write directly to Google Sheets".  `formId` only
serves as the form title (`validatedData.formId || 'Form Submission'`). -/
def POSTroute (env : GoogleEnv) (faults : SheetsFaults) (st : SheetsState)
    (timestamp : String) (body : PostBody) : PostOutcome :=
  let formTitle := if body.formId = "" then "Form Submission" else body.formId
  match addToGoogleSheets env faults st timestamp body.data formTitle with
  | (st', none) => ⟨st', 500, none⟩
  | (st', some r) => ⟨st', 201, some r⟩

/-- A `Form` row of the relational store. -/
structure FormRec where
  id : String
  title : String
  createdById : String
  isActive : Bool
deriving DecidableEq, Repr

/-- A `Submission` row of the relational store. -/
structure SubmissionRow where
  id : String
  formId : String
  userId : Option String
deriving DecidableEq, Repr

/-- The relational database visible to the handlers. -/
structure Db where
  forms : List FormRec := []
  submissions : List SubmissionRow := []

/-- Header probe of the check-then-write variant:
`firstRow && firstRow[0] === 'Timestamp' && firstRow[1] === 'Audit Date'`. -/
def firstRowHasHeaders (rows : List (List String)) : Bool :=
  match rows.head? with
  | none => false
  | some r => r.getD 0 "" = "Timestamp" && r.getD 1 "" = "Audit Date"

/-- `addToGoogleSheets` of the variant handler (part_005): probe
`A1:I1`, create the sheet if the probe failed, (re)write the header row if
it is not already correct, then append the data row.  A TypeError while
building `rowData` is caught by its outer catch (null). -/
def addToGoogleSheetsV2 (env : GoogleEnv) (st : SheetsState)
    (timestamp : String) (d : SubmissionDataRec) (formTitle : String) :
    SheetsState × Option String :=
  if !(envTruthy env.spreadsheetId || envTruthy env.sheetsId) then (st, none)
  else
    match buildRowData timestamp d formTitle with
    | .error _ => (st, none)
    | .ok rowData =>
      match st.sheet with
      | none =>
        -- probe failed: create, write headers, append
        let rows := setRowAt [] 0 sheetsHeaderRow
        let rows := rows ++ [rowData]
        (⟨some rows⟩, some ("Submissions!A" ++ toString rows.length ++
          ":I" ++ toString rows.length))
      | some rows =>
        let rows := if firstRowHasHeaders rows then rows else setRowAt rows 0 sheetsHeaderRow
        let rows := rows ++ [rowData]
        (⟨some rows⟩, some ("Submissions!A" ++ toString rows.length ++
          ":I" ++ toString rows.length))

/-- The variant `POST` handler (part_005): after parsing, it looks the
form up with `findUnique({where: {id, isActive: true}})` and rejects with
404 before anything is written when no active form matches. -/
def POSTvariant (db : Db) (env : GoogleEnv) (st : SheetsState)
    (timestamp : String) (body : PostBody) : PostOutcome :=
  match db.forms.find? (fun f => f.id = body.formId && f.isActive) with
  | none => ⟨st, 404, none⟩
  | some form =>
    match addToGoogleSheetsV2 env st timestamp body.data form.title with
    | (st', none) => ⟨st', 500, none⟩
    | (st', some r) => ⟨st', 201, some r⟩

/-! ## Authenticated listing (`GET /submissions`) -/

/-- An authenticated session user. -/
structure Caller where
  id : String
  role : String
deriving DecidableEq, Repr

/-- Does some form row with this id belong to this user
(the `form: {createdById}` relation filter)? -/
def formOwnedBy (db : Db) (formId userId : String) : Bool :=
  db.forms.any (fun f => f.id = formId && f.createdById = userId)

/-- `GET /submissions` (ordering by `createdAt` is dropped — only
membership matters here).  With `?formId=` the form must be owned by the
caller or the caller must be an admin (the prisma `OR` gains an
always-true clause for admins), else 404; all of that form's submissions
are then returned.  Without `formId` the caller gets their own
submissions and those of forms they created. -/
def GETsubmissions (db : Db) (session : Option Caller)
    (formId? : Option String) : Except Nat (List SubmissionRow) :=
  match session with
  | none => .error 401
  | some u =>
    match formId? with
    | some fid =>
      match db.forms.find? (fun f => f.id = fid &&
          (f.createdById = u.id || u.role = "ADMIN")) with
      | none => .error 404
      | some _ => .ok (db.submissions.filter (fun s => s.formId = fid))
    | none =>
      .ok (db.submissions.filter (fun s =>
        s.userId = some u.id || formOwnedBy db s.formId u.id))

/-- A submission row is reachable by a caller when some query of the
listing endpoint returns it. -/
def canSee (db : Db) (u : Caller) (s : SubmissionRow) : Prop :=
  ∃ q l, GETsubmissions db (some u) q = .ok l ∧ s ∈ l

/-! ## Dynamic form validator (`validationSchema` in new-form-form.tsx)

The public renderer builds one zod schema per field:
base type (`string`, `string().email`, `coerce.number`, `array(string)`,
`boolean`), then for required fields `.min(1)` (non-checkbox — note this
lands on the *number* for number fields), `.min(1)` on the array for
checkbox-multiple, or `.refine(v => v === true)` for checkbox-single;
non-required fields get `.optional()`.

The two library behaviours the schema delegates to — zod's email predicate
and JS `Number()` string conversion — are parameters `emailOk` and
`toNum`. -/

/-- The field `type` enum of `formFieldSchema`. -/
inductive FieldType where
  | text | textarea | select | checkbox | radio | file | date | email | number
deriving DecidableEq, Repr

/-- A field definition, restricted to what the validator reads
(`placeholder`, `options` and `validation` are never consulted). -/
structure FormFieldDef where
  id : String
  type : FieldType
  label : String := ""
  required : Bool := false
  multiple : Bool := false
deriving DecidableEq, Repr

/-- A value of the rendered form's state: text inputs hold strings,
checkbox groups hold string arrays, single checkboxes hold booleans. -/
inductive FieldValue where
  | str (s : String)
  | strs (xs : List String)
  | bool (b : Bool)
deriving DecidableEq, Repr

/-- `Number(v)` on a form value (`z.coerce.number`); `none` is `NaN`.
Arrays stringify first, booleans map to 0/1, `undefined` is `NaN`. -/
def coerceNum (toNum : String → Option Rat) : Option FieldValue → Option Rat
  | none => none
  | some (.str s) => toNum s
  | some (.strs xs) => toNum (String.intercalate "," xs)
  | some (.bool b) => some (if b then 1 else 0)

/-- Does deriving this field's zod schema throw?  For a required
multiple-checkbox field the source calls
`(z.array(z.string()).default([]) as z.ZodArray).min(1, ...)`, but the
runtime value is a `ZodDefault`, which has no `.min` — a TypeError while
the `validationSchema` is being built. -/
def fieldSchemaThrows (f : FormFieldDef) : Bool :=
  f.required && f.multiple &&
    (match f.type with
     | .checkbox => true
     | _ => false)

/-- The per-field zod schema of `validationSchema`, applied to the value
under the field's id (`none` = key absent / `undefined`).  `.error ()` is
the schema-derivation TypeError of `fieldSchemaThrows` (value-independent);
`.ok none` is success and `.ok (some m)` carries the (first) message. -/
def validateField (emailOk : String → Bool) (toNum : String → Option Rat)
    (f : FormFieldDef) (v : Option FieldValue) : Except Unit (Option String) :=
  match f.type with
  | .email =>
    if f.required then
      match v with
      | none => .ok (some "Required")
      | some (.str s) =>
        if !emailOk s then .ok (some "Please enter a valid email address")
        else if s.length < 1 then .ok (some "This field is required")
        else .ok none
      | some _ => .ok (some "Invalid input")
    else
      match v with
      | none => .ok none
      | some (.str s) =>
        if emailOk s then .ok none else .ok (some "Please enter a valid email address")
      | some _ => .ok (some "Invalid input")
  | .number =>
    if f.required then
      match coerceNum toNum v with
      | none => .ok (some "Required")
      | some q => if q < 1 then .ok (some "This field is required") else .ok none
    else
      match v with
      | none => .ok none
      | some w =>
        match coerceNum toNum (some w) with
        | none => .ok (some "Invalid input")
        | some _ => .ok none
  | .checkbox =>
    if f.multiple then
      if f.required then
        -- `(fieldSchema as z.ZodArray).min(1, ...)` on a ZodDefault: TypeError
        .error ()
      else
        match v with
        | none => .ok none
        | some (.strs _) => .ok none
        | some _ => .ok (some "Invalid input")
    else
      if f.required then
        match v with
        | none => .ok (some "Required")
        | some (.bool b) => if b then .ok none else .ok (some "This field is required")
        | some _ => .ok (some "Invalid input")
      else
        match v with
        | none => .ok none
        | some (.bool _) => .ok none
        | some _ => .ok (some "Invalid input")
  | _ =>
    if f.required then
      match v with
      | none => .ok (some "Required")
      | some (.str s) =>
        if s.length < 1 then .ok (some "This field is required") else .ok none
      | some _ => .ok (some "Invalid input")
    else
      match v with
      | none => .ok none
      | some (.str _) => .ok none
      | some _ => .ok (some "Invalid input")

/-- The whole-record validator: the source derives every field schema
first (so any `fieldSchemaThrows` field crashes the derivation and
nothing validates — `.error ()`); otherwise fields are checked
independently and the result pairs each failing field's id with its
(single) message.  The error propagation here is interleaved per field,
which yields the same result: an error exactly when some field's schema
throws, the message list otherwise. -/
def validateFields (emailOk : String → Bool) (toNum : String → Option Rat) :
    List FormFieldDef → (String → Option FieldValue) →
    Except Unit (List (String × String))
  | [], _ => .ok []
  | f :: rest, record =>
    match validateField emailOk toNum f (record f.id) with
    | .error e => .error e
    | .ok r =>
      match validateFields emailOk toNum rest record with
      | .error e => .error e
      | .ok rs =>
        .ok ((match r with
          | some m => [(f.id, m)]
          | none => []) ++ rs)

/-- Dropping one key from a record (the claim's "removing a field's value"). -/
def removeKey (record : String → Option FieldValue) (k : String) :
    String → Option FieldValue :=
  fun id => if id = k then none else record id

/-! The spec-side predicate for the refinement claim C8, written from the
claim's words, to be compared with `validateFields`: "a syntactically
valid email for email fields, numeric input for number fields, a
non-empty string for required non-checkbox fields, at least one element
for required checkbox-multiple fields, exactly true for required
checkbox-single fields"; optional fields may also be absent. -/

/-- Spec-side "satisfies this field's required/type rule", following the
claim's words (not the code). -/
def claimFieldOk (emailOk : String → Bool) (toNum : String → Option Rat)
    (f : FormFieldDef) (v : Option FieldValue) : Bool :=
  if f.required then
    match f.type with
    | .checkbox =>
      if f.multiple then
        match v with
        | some (.strs xs) => !xs.isEmpty
        | _ => false
      else
        match v with
        | some (.bool b) => b
        | _ => false
    | .email =>
      match v with
      | some (.str s) => emailOk s
      | _ => false
    | .number =>
      match v with
      | some (.str s) => s ≠ "" && (toNum s).isSome
      | _ => false
    | _ =>
      match v with
      | some (.str s) => s ≠ ""
      | _ => false
  else
    match v with
    | none => true
    | some w =>
      match f.type with
      | .checkbox =>
        if f.multiple then
          match w with
          | .strs _ => true
          | _ => false
        else
          match w with
          | .bool _ => true
          | _ => false
      | .email =>
        match w with
        | .str s => emailOk s
        | _ => false
      | .number => (coerceNum toNum (some w)).isSome
      | _ =>
        match w with
        | .str _ => true
        | _ => false

/-- Spec-side "the record satisfies every field's rule" (claim C8). -/
def claimRecordOk (emailOk : String → Bool) (toNum : String → Option Rat)
    (fields : List FormFieldDef) (record : String → Option FieldValue) : Bool :=
  fields.all (fun f => claimFieldOk emailOk toNum f (record f.id))

/-- The amendment the counterexample forces on `claimFieldOk`: a required
number field's coerced value must also be at least 1 (the `.min(1)`
requiredness encoding). -/
def amendedFieldOk (emailOk : String → Bool) (toNum : String → Option Rat)
    (f : FormFieldDef) (v : Option FieldValue) : Bool :=
  if f.required && f.type = .number then
    match v with
    | some (.str s) =>
      s ≠ "" && (match toNum s with
        | some q => decide (1 ≤ q)
        | none => false)
    | _ => false
  else claimFieldOk emailOk toNum f v

/-- `amendedFieldOk` for every field of the list. -/
def amendedRecordOk (emailOk : String → Bool) (toNum : String → Option Rat)
    (fields : List FormFieldDef) (record : String → Option FieldValue) : Bool :=
  fields.all (fun f => amendedFieldOk emailOk toNum f (record f.id))

/-- A concrete stand-in for zod's email predicate, used by witnesses. -/
def demoEmailOk (s : String) : Bool :=
  s.data.any (fun c => c = '@') && decide (3 ≤ s.data.length)

/-- A concrete stand-in for JS `Number()` on strings, used by witnesses;
it agrees with `Number()` on the handful of strings the witnesses submit. -/
def demoToNum (s : String) : Option Rat :=
  match s with
  | "0" => some 0
  | "1" => some 1
  | "2" => some 2
  | "200" => some 200
  | _ => none

/-- Decidable equality for `Except` results, so witnesses can evaluate
the fallible writer and validator on concrete inputs. -/
instance {ε α : Type} [DecidableEq ε] [DecidableEq α] : DecidableEq (Except ε α) :=
  fun a b =>
    match a, b with
    | .ok x, .ok y =>
      if h : x = y then .isTrue (by rw [h]) else .isFalse (by simp [h])
    | .error x, .error y =>
      if h : x = y then .isTrue (by rw [h]) else .isFalse (by simp [h])
    | .ok _, .error _ => .isFalse (by simp)
    | .error _, .ok _ => .isFalse (by simp)

/-! ## Concrete fixtures used by the witnesses -/

/-- A fully configured environment. -/
def env0 : GoogleEnv := ⟨some "client@example.com", some "key", some "sheet-id", none⟩

/-- A one-employee allow-list, as the spec's example. -/
def emps0 : List SheetEmployee := [⟨some "1", some "Jane Doe"⟩]

/-- A one-store allow-list, as the spec's example. -/
def stores0 : List SheetStore := [⟨some "1", some "Store A", some "Jakarta", none, none⟩]

/-- A document exposing only the `Employees` tab. -/
def docEmp : SpreadsheetDoc := ⟨some emps0, none⟩

/-- A document exposing only the `Stores` tab. -/
def docSto : SpreadsheetDoc := ⟨none, some stores0⟩

/-- A 200-character note. -/
def note200 : String := String.mk (List.replicate 200 'a')

/-- An empty submission data bag. -/
def demoData : SubmissionDataRec := {}

/-- A database whose only form is inactive. -/
def dbCx : Db := ⟨[⟨"f1", "Audit", "owner-1", false⟩], []⟩

/-- A database with one active form and one submission by a third user. -/
def db1 : Db := ⟨[⟨"f1", "T", "owner-1", true⟩], [⟨"s1", "f1", some "author-1"⟩]⟩

/-- The submission row of `db1`. -/
def sub1 : SubmissionRow := ⟨"s1", "f1", some "author-1"⟩

/-- The form row of `db1`. -/
def form1 : FormRec := ⟨"f1", "T", "owner-1", true⟩

/-- Fields used by the validator witness: a required text field and a
required number field. -/
def fieldsW : List FormFieldDef :=
  [⟨"name", .text, "Name", true, false⟩, ⟨"qty", .number, "Qty", true, false⟩]

/-- A record satisfying `fieldsW` under the amended rule. -/
def recordW : String → Option FieldValue :=
  fun id => if id = "name" then some (.str "Bob")
    else if id = "qty" then some (.str "2") else none

/-- The single-field schema of the C8 counterexample. -/
def cxFields : List FormFieldDef := [⟨"qty", .number, "Qty", true, false⟩]

/-- The record submitting the well-formed number 0 for that field. -/
def cxRecord : String → Option FieldValue :=
  fun id => if id = "qty" then some (.str "0") else none

/-- The required multiple-checkbox schema of the C8 counterexample. -/
def cxFieldsCk : List FormFieldDef := [⟨"opts", .checkbox, "Opts", true, true⟩]

/-- A record giving that field a one-element selection. -/
def cxRecordCk : String → Option FieldValue :=
  fun id => if id = "opts" then some (.strs ["a"]) else none

/-! ## Theorems -/

/-- C5 counterexample: the claim (and the spec example) says
`["a","b"]` flattens to `"a"`, but the code reads `fileData[0].url`,
which is undefined on a string, so the result is `""`. -/
theorem getFileUrl_array_of_strings_cx :
    getFileUrl (JsVal.arr [JsVal.str "a", JsVal.str "b"]) = .ok "" ∧
    getFileUrl (JsVal.arr [JsVal.str "a", JsVal.str "b"]) ≠ .ok "a" := by
  constructor <;> decide

/-- C5 (amended): file-URL flattening maps a bare string to itself,
null/undefined to `""`, an object with a `.url` property to that url, and
a non-empty array to the `.url` property of its FIRST ELEMENT — `""` when
the first element is a bare string, a thrown TypeError (failing the write
with nothing stored) when it is null/undefined — with every other shape
(empty array, number, boolean, object without url) flattening to `""`.
The last conjunct carries the throw to the writer: the submission fails
with `null` and the sheet untouched. -/
theorem getFileUrl_flattening :
    (∀ s, getFileUrl (JsVal.str s) = .ok s) ∧
    getFileUrl JsVal.null = .ok "" ∧
    getFileUrl JsVal.undef = .ok "" ∧
    (∀ u, getFileUrl (JsVal.obj (some u)) = .ok u) ∧
    getFileUrl (JsVal.obj none) = .ok "" ∧
    (∀ u rest, getFileUrl (JsVal.arr (JsVal.obj (some u) :: rest)) = .ok u) ∧
    getFileUrl (JsVal.arr [JsVal.str "a", JsVal.str "b"]) = .ok "" ∧
    (∀ rest, getFileUrl (JsVal.arr (JsVal.null :: rest)) = .error ()) ∧
    (∀ rest, getFileUrl (JsVal.arr (JsVal.undef :: rest)) = .error ()) ∧
    getFileUrl (JsVal.arr []) = .ok "" ∧
    (∀ n, getFileUrl (JsVal.num n) = .ok "") ∧
    (∀ b, getFileUrl (JsVal.bool b) = .ok "") ∧
    (∀ env faults st timestamp d formTitle rest,
      d.before_image = some (JsVal.arr (JsVal.null :: rest)) →
      addToGoogleSheets env faults st timestamp d formTitle = (st, none)) := by
  refine ⟨?_, by decide, by decide, ?_, by decide, ?_, by decide, ?_, ?_,
    by decide, ?_, ?_, ?_⟩
  · intro s
    by_cases h : s = "" <;> simp [getFileUrl, jsTruthy, h]
  · intro u
    by_cases h : u = "" <;> simp [getFileUrl, jsTruthy, jsUrlProp, h]
  · intro u rest
    by_cases h : u = "" <;> simp [getFileUrl, jsTruthy, jsUrlProp, h]
  · intro rest
    simp [getFileUrl, jsTruthy]
  · intro rest
    simp [getFileUrl, jsTruthy]
  · intro n
    by_cases h : n = 0 <;> simp [getFileUrl, jsTruthy, jsUrlProp, h]
  · intro b
    cases b <;> simp [getFileUrl, jsTruthy, jsUrlProp]
  · intro env faults st timestamp d formTitle rest hb
    have hrow : buildRowData timestamp d formTitle = .error () := by
      simp [buildRowData, hb, jsOfOpt, getFileUrl, jsTruthy]
    rw [addToGoogleSheets]
    cases hc : (!(envTruthy env.spreadsheetId || envTruthy env.sheetsId)) with
    | true => simp [hc]
    | false => simp [hc, hrow]

/-- C10: in the derived validator a required number field gets `.min(1)`
on the coerced number, so the field validates exactly when the coerced
value is at least 1 (0 is rejected), while the same input is accepted when
the field is not required. -/
theorem number_required_min_one (emailOk : String → Bool) (toNum : String → Option Rat)
    (fid lab s : String) (q : Rat) (h : toNum s = some q) :
    (validateField emailOk toNum ⟨fid, .number, lab, true, false⟩ (some (.str s)) = .ok none
      ↔ 1 ≤ q) ∧
    validateField emailOk toNum ⟨fid, .number, lab, false, false⟩ (some (.str s)) = .ok none := by
  constructor
  · constructor
    · intro hnone
      by_contra hq1
      have hq : q < 1 := not_le.mp hq1
      simp [validateField, coerceNum, h, hq] at hnone
    · intro h1
      have hq : ¬ q < 1 := not_lt.mpr h1
      simp [validateField, coerceNum, h, hq]
  · simp [validateField, coerceNum, h]

/-- C10 witness: the input "0" on a required number field. -/
theorem number_required_min_one_witness :
    demoToNum "0" = some 0 ∧
    ((validateField demoEmailOk demoToNum ⟨"qty", .number, "Qty", true, false⟩
        (some (.str "0")) = .ok none ↔ (1 : Rat) ≤ 0) ∧
      validateField demoEmailOk demoToNum ⟨"qty", .number, "Qty", false, false⟩
        (some (.str "0")) = .ok none) :=
  ⟨by decide, number_required_min_one demoEmailOk demoToNum "qty" "Qty" "0" 0 (by decide)⟩

/-- C7: a supplied `notes` value must be a string (else 400), is rejected
with 400 when its trim exceeds 200 characters, and otherwise (200 exactly
included) the trimmed value replaces the raw input. -/
theorem notes_length_rule (env : GoogleEnv) (doc : SpreadsheetDoc)
    (d : SubmissionDataRec) (v : JsVal) (hN : d.notes = some v)
    (hE : d.employee_name = none) (hS : d.store_location = none) :
    ((∀ s, v ≠ .str s) →
      validateSubmissionData env doc d = .error ⟨400, "Notes must be provided as text"⟩) ∧
    (∀ s, v = .str s → (jsTrim s).length > 200 →
      validateSubmissionData env doc d =
        .error ⟨400, "Notes must be 200 characters or fewer"⟩) ∧
    (∀ s, v = .str s → (jsTrim s).length ≤ 200 →
      validateSubmissionData env doc d = .ok { d with notes := some (.str (jsTrim s)) }) := by
  have base : validateSubmissionData env doc d =
      (match notesCheck v with
       | .error e => .error e
       | .ok t => .ok { d with notes := some (.str t) }) := by
    simp [validateSubmissionData, hE, hS, hN]
  refine ⟨?_, ?_, ?_⟩
  · intro hns
    rw [base]
    cases v with
    | str s => exact absurd rfl (hns s)
    | null => simp [notesCheck]
    | undef => simp [notesCheck]
    | num n => simp [notesCheck]
    | bool b => simp [notesCheck]
    | arr xs => simp [notesCheck]
    | obj u => simp [notesCheck]
  · intro s hv hlen
    subst hv
    rw [base]
    simp [notesCheck, hlen]
  · intro s hv hlen
    subst hv
    rw [base]
    simp [notesCheck, Nat.not_lt.mpr hlen]

set_option maxRecDepth 8000 in
/-- C7 witness: a 200-character note is accepted and stored trimmed. -/
theorem notes_length_rule_witness :
    (({ notes := some (.str note200) } : SubmissionDataRec).notes = some (.str note200) ∧
      ({ notes := some (.str note200) } : SubmissionDataRec).employee_name = none ∧
      (jsTrim note200).length = 200) ∧
    validateSubmissionData ⟨none, none, none, none⟩ ⟨none, none⟩
        { notes := some (.str note200) } =
      .ok { ({ notes := some (.str note200) } : SubmissionDataRec) with
              notes := some (.str (jsTrim note200)) } :=
  ⟨⟨rfl, rfl, by decide⟩,
    (notes_length_rule ⟨none, none, none, none⟩ ⟨none, none⟩
        { notes := some (.str note200) } (.str note200) rfl rfl rfl).2.2
      note200 rfl (by decide)⟩

/-- C1: a supplied `employee_name` must be a string (else 400), non-empty
after trimming (else 400), and its normalization must match the
normalization of some (truthy) employee name fetched from the gateway
(else 400); on a match the TRIMMED original — not the canonical form —
replaces the raw value.  The last conjunct characterizes the allow-list:
its members are exactly the normalizations of the gateway names. -/
theorem employee_name_allowlist (env : GoogleEnv) (doc : SpreadsheetDoc)
    (employees : List SheetEmployee) (d : SubmissionDataRec) (v : JsVal)
    (hcfg : envTruthy env.clientEmail ∧ envTruthy env.privateKey ∧ envTruthy env.spreadsheetId)
    (hsheet : doc.employeesSheet = some employees)
    (hE : d.employee_name = some v) (hS : d.store_location = none) (hN : d.notes = none) :
    ((∀ s, v ≠ .str s) →
      validateSubmissionData env doc d =
        .error ⟨400, "Employee name must be a valid string"⟩) ∧
    (∀ s, v = .str s → jsTrim s = "" →
      validateSubmissionData env doc d = .error ⟨400, "Employee name is required"⟩) ∧
    (∀ s, v = .str s → jsTrim s ≠ "" →
      normalizeValue (jsTrim s) ∉ allowedEmployeeNames employees →
      validateSubmissionData env doc d =
        .error ⟨400, "Employee name must match an existing employee"⟩) ∧
    (∀ s, v = .str s → jsTrim s ≠ "" →
      normalizeValue (jsTrim s) ∈ allowedEmployeeNames employees →
      validateSubmissionData env doc d =
        .ok { d with employee_name := some (.str (jsTrim s)) }) ∧
    (∀ x, x ∈ allowedEmployeeNames employees ↔
      ∃ e ∈ employees, ∃ nm, e.name = some nm ∧ nm ≠ "" ∧ normalizeValue nm = x) := by
  obtain ⟨h1, h2, h3⟩ := hcfg
  have hfetch : fetchAllowedSheetData true false env doc = .ok ⟨employees, []⟩ := by
    simp [fetchAllowedSheetData, h1, h2, h3, hsheet]
  have base : validateSubmissionData env doc d =
      (match employeeCheck employees v with
       | .error e => .error e
       | .ok t => .ok { d with employee_name := some (.str t) }) := by
    rw [validateSubmissionData]
    simp only [hE, hS, hN, Option.isSome_some, Option.isSome_none, Bool.or_false,
      if_true, hfetch]
    cases employeeCheck employees v <;> rfl
  refine ⟨?_, ?_, ?_, ?_, ?_⟩
  · intro hns
    rw [base]
    cases v with
    | str s => exact absurd rfl (hns s)
    | null => simp [employeeCheck]
    | undef => simp [employeeCheck]
    | num n => simp [employeeCheck]
    | bool b => simp [employeeCheck]
    | arr xs => simp [employeeCheck]
    | obj u => simp [employeeCheck]
  · intro s hv ht
    subst hv
    rw [base]
    simp [employeeCheck, ht]
  · intro s hv ht hmem
    subst hv
    rw [base]
    simp [employeeCheck, ht, hmem]
  · intro s hv ht hmem
    subst hv
    rw [base]
    simp [employeeCheck, ht, hmem]
  · intro x
    simp only [allowedEmployeeNames, List.mem_map, List.mem_filter, List.mem_filterMap]
    constructor
    · rintro ⟨nm, ⟨⟨e, he, hname⟩, hne⟩, hnorm⟩
      exact ⟨e, he, nm, hname, by simpa using hne, hnorm⟩
    · rintro ⟨e, he, nm, hname, hne, hnorm⟩
      exact ⟨nm, ⟨⟨e, he, hname⟩, by simpa using hne⟩, hnorm⟩

/-- C1 witness: with allow-list ["Jane Doe"], the spec's three variants
are each accepted and stored as their own trimmed original, and an
unlisted name is rejected. -/
theorem employee_name_allowlist_witness :
    (envTruthy env0.clientEmail ∧ envTruthy env0.privateKey ∧ envTruthy env0.spreadsheetId) ∧
    validateSubmissionData env0 docEmp { employee_name := some (.str " Jane   Doe ") } =
      .ok { employee_name := some (.str "Jane   Doe") } ∧
    validateSubmissionData env0 docEmp { employee_name := some (.str "jane doe") } =
      .ok { employee_name := some (.str "jane doe") } ∧
    validateSubmissionData env0 docEmp { employee_name := some (.str "JANE DOE") } =
      .ok { employee_name := some (.str "JANE DOE") } ∧
    validateSubmissionData env0 docEmp { employee_name := some (.str "John Smith") } =
      .error ⟨400, "Employee name must match an existing employee"⟩ :=
  ⟨by decide,
   (employee_name_allowlist env0 docEmp emps0 _ _ (by decide) rfl rfl rfl rfl).2.2.2.1
     " Jane   Doe " rfl (by decide) (by decide),
   (employee_name_allowlist env0 docEmp emps0 _ _ (by decide) rfl rfl rfl rfl).2.2.2.1
     "jane doe" rfl (by decide) (by decide),
   (employee_name_allowlist env0 docEmp emps0 _ _ (by decide) rfl rfl rfl rfl).2.2.2.1
     "JANE DOE" rfl (by decide) (by decide),
   (employee_name_allowlist env0 docEmp emps0 _ _ (by decide) rfl rfl rfl rfl).2.2.1
     "John Smith" rfl (by decide) (by decide)⟩

/-- The entries one store contributes to the allow-set, characterized. -/
theorem mem_storeAllowedEntries (st : SheetStore) (x : String) :
    x ∈ storeAllowedEntries st ↔
      ∃ nm, st.name = some nm ∧ nm ≠ "" ∧ jsTrim nm ≠ "" ∧
        (x = normalizeValue (jsTrim nm) ∨
         ∃ loc, st.location = some loc ∧ loc ≠ "" ∧ jsTrim loc ≠ "" ∧
           x = normalizeValue (jsTrim nm ++ " - " ++ jsTrim loc)) := by
  cases hname : st.name with
  | none => simp [storeAllowedEntries, optTruthy, hname]
  | some nm =>
    by_cases hne : nm = ""
    · simp [storeAllowedEntries, optTruthy, hname, hne]
    · by_cases htn : jsTrim nm = ""
      · cases hloc : st.location with
        | none => simp [storeAllowedEntries, optTruthy, hname, hne, htn, hloc]
        | some loc =>
          by_cases hle : loc = "" <;>
            simp [storeAllowedEntries, optTruthy, hname, hne, htn, hloc, hle]
      · cases hloc : st.location with
        | none => simp [storeAllowedEntries, optTruthy, hname, hne, htn, hloc]
        | some loc =>
          by_cases hle : loc = ""
          · simp [storeAllowedEntries, optTruthy, hname, hne, htn, hloc, hle]
          · by_cases htl : jsTrim loc = "" <;>
              simp [storeAllowedEntries, optTruthy, hname, hne, htn, hloc, hle, htl]

/-- C2: the store allow-set contains, per store (with truthy, non-blank
name and location), exactly the normalized bare name and the normalized
`"{name} - {location}"` combination; a supplied `store_location` matching
either form is accepted and replaced by its trimmed original, and one
matching neither (e.g. a right name with a wrong location) is rejected
with 400. -/
theorem store_location_allowlist (env : GoogleEnv) (doc : SpreadsheetDoc)
    (stores : List SheetStore) (d : SubmissionDataRec) (v : JsVal)
    (hcfg : envTruthy env.clientEmail ∧ envTruthy env.privateKey ∧ envTruthy env.spreadsheetId)
    (hsheet : doc.storesSheet = some stores)
    (hS : d.store_location = some v) (hE : d.employee_name = none) (hN : d.notes = none) :
    (∀ x, x ∈ allowedStoreValues stores ↔
      ∃ st ∈ stores, ∃ nm, st.name = some nm ∧ nm ≠ "" ∧ jsTrim nm ≠ "" ∧
        (x = normalizeValue (jsTrim nm) ∨
         ∃ loc, st.location = some loc ∧ loc ≠ "" ∧ jsTrim loc ≠ "" ∧
           x = normalizeValue (jsTrim nm ++ " - " ++ jsTrim loc))) ∧
    ((∀ s, v ≠ .str s) →
      validateSubmissionData env doc d =
        .error ⟨400, "Store location must be a valid string"⟩) ∧
    (∀ s, v = .str s → jsTrim s = "" →
      validateSubmissionData env doc d = .error ⟨400, "Store location is required"⟩) ∧
    (∀ s, v = .str s → jsTrim s ≠ "" →
      normalizeValue (jsTrim s) ∉ allowedStoreValues stores →
      validateSubmissionData env doc d =
        .error ⟨400, "Store location must match an existing store"⟩) ∧
    (∀ s, v = .str s → jsTrim s ≠ "" →
      normalizeValue (jsTrim s) ∈ allowedStoreValues stores →
      validateSubmissionData env doc d =
        .ok { d with store_location := some (.str (jsTrim s)) }) := by
  obtain ⟨h1, h2, h3⟩ := hcfg
  have hfetch : fetchAllowedSheetData false true env doc = .ok ⟨[], stores⟩ := by
    simp [fetchAllowedSheetData, h1, h2, h3, hsheet]
  have base : validateSubmissionData env doc d =
      (match storeCheck stores v with
       | .error e => .error e
       | .ok t => .ok { d with store_location := some (.str t) }) := by
    rw [validateSubmissionData]
    simp only [hE, hS, hN, Option.isSome_some, Option.isSome_none, Bool.false_or,
      if_true, hfetch]
    cases storeCheck stores v <;> rfl
  refine ⟨?_, ?_, ?_, ?_, ?_⟩
  · intro x
    simp [allowedStoreValues, List.mem_flatMap, mem_storeAllowedEntries]
  · intro hns
    rw [base]
    cases v with
    | str s => exact absurd rfl (hns s)
    | null => simp [storeCheck]
    | undef => simp [storeCheck]
    | num n => simp [storeCheck]
    | bool b => simp [storeCheck]
    | arr xs => simp [storeCheck]
    | obj u => simp [storeCheck]
  · intro s hv ht
    subst hv
    rw [base]
    simp [storeCheck, ht]
  · intro s hv ht hmem
    subst hv
    rw [base]
    simp [storeCheck, ht, hmem]
  · intro s hv ht hmem
    subst hv
    rw [base]
    simp [storeCheck, ht, hmem]

/-- C2 witness: with store `{name: "Store A", location: "Jakarta"}`, both
the bare name and a case/space variant of the combined form are accepted
(stored trimmed), and "Store A - Bandung" is rejected. -/
theorem store_location_allowlist_witness :
    (envTruthy env0.clientEmail ∧ envTruthy env0.privateKey ∧ envTruthy env0.spreadsheetId) ∧
    validateSubmissionData env0 docSto { store_location := some (.str "Store A") } =
      .ok { store_location := some (.str "Store A") } ∧
    validateSubmissionData env0 docSto { store_location := some (.str " store  A - JAKARTA ") } =
      .ok { store_location := some (.str "store  A - JAKARTA") } ∧
    validateSubmissionData env0 docSto { store_location := some (.str "Store A - Bandung") } =
      .error ⟨400, "Store location must match an existing store"⟩ :=
  ⟨by decide,
   (store_location_allowlist env0 docSto stores0 _ _ (by decide) rfl rfl rfl rfl).2.2.2.2
     "Store A" rfl (by decide) (by decide),
   (store_location_allowlist env0 docSto stores0 _ _ (by decide) rfl rfl rfl rfl).2.2.2.2
     " store  A - JAKARTA " rfl (by decide) (by decide),
   (store_location_allowlist env0 docSto stores0 _ _ (by decide) rfl rfl rfl rfl).2.2.2.1
     "Store A - Bandung" rfl (by decide) (by decide)⟩

/-- C6: a gateway failure — missing client email / private key /
spreadsheet id configuration, or an absent Employees / Stores tab — is
surfaced by the normalizer as the 500 "Failed to validate submission data"
response, never as the 400 mismatch response or an empty allow-list. -/
theorem gateway_failure_is_500 (env : GoogleEnv) (doc : SpreadsheetDoc)
    (d : SubmissionDataRec) :
    (∀ inclE inclS, (inclE || inclS) →
      ¬(envTruthy env.clientEmail ∧ envTruthy env.privateKey ∧ envTruthy env.spreadsheetId) →
      fetchAllowedSheetData inclE inclS env doc =
        .error "Google Sheets configuration missing") ∧
    ((envTruthy env.clientEmail ∧ envTruthy env.privateKey ∧ envTruthy env.spreadsheetId) →
      doc.employeesSheet = none →
      fetchAllowedSheetData true false env doc = .error "Employees sheet not found") ∧
    ((envTruthy env.clientEmail ∧ envTruthy env.privateKey ∧ envTruthy env.spreadsheetId) →
      doc.storesSheet = none →
      fetchAllowedSheetData false true env doc = .error "Stores sheet not found") ∧
    (∀ e, (d.employee_name.isSome || d.store_location.isSome) →
      fetchAllowedSheetData d.employee_name.isSome d.store_location.isSome env doc = .error e →
      validateSubmissionData env doc d =
        .error ⟨500, "Failed to validate submission data"⟩) := by
  refine ⟨?_, ?_, ?_, ?_⟩
  · intro inclE inclS hincl hcfg
    rw [fetchAllowedSheetData]
    have hb : (!envTruthy env.clientEmail || !envTruthy env.privateKey
        || !envTruthy env.spreadsheetId) = true := by
      cases hA : envTruthy env.clientEmail <;> cases hB : envTruthy env.privateKey <;>
        cases hC : envTruthy env.spreadsheetId <;> simp_all
    have hor : inclE = true ∨ inclS = true := by
      cases hE2 : inclE <;> cases hS2 : inclS <;> simp_all
    rcases hor with h | h <;> simp [h, hb]
  · rintro ⟨h1, h2, h3⟩ hemp
    simp [fetchAllowedSheetData, h1, h2, h3, hemp]
  · rintro ⟨h1, h2, h3⟩ hsto
    simp [fetchAllowedSheetData, h1, h2, h3, hsto]
  · intro e hincl hfetch
    rw [validateSubmissionData]
    have hif : (d.employee_name.isSome || d.store_location.isSome) = true := hincl
    simp only [hif, if_true, hfetch]

/-- C6 witness: unset configuration with an `employee_name` present gives
the 500 "failed to validate" response. -/
theorem gateway_failure_is_500_witness :
    ((true || false) = true ∧
      fetchAllowedSheetData true false ⟨none, none, none, none⟩ ⟨none, none⟩ =
        .error "Google Sheets configuration missing") ∧
    validateSubmissionData ⟨none, none, none, none⟩ ⟨none, none⟩
        { employee_name := some (.str "Jane Doe") } =
      .error ⟨500, "Failed to validate submission data"⟩ :=
  ⟨⟨rfl,
    (gateway_failure_is_500 ⟨none, none, none, none⟩ ⟨none, none⟩
        { employee_name := some (.str "Jane Doe") }).1 true false rfl (by decide)⟩,
    (gateway_failure_is_500 ⟨none, none, none, none⟩ ⟨none, none⟩
        { employee_name := some (.str "Jane Doe") }).2.2.2
      "Google Sheets configuration missing" rfl
      ((gateway_failure_is_500 ⟨none, none, none, none⟩ ⟨none, none⟩
          { employee_name := some (.str "Jane Doe") }).1 true false rfl (by decide))⟩

/-- C4: the spreadsheet writer performs exactly one recovery — on the
missing-sheet / unparseable-range failure it creates the sheet and writes
the header row (declared column order) followed by the data row; any other
append failure, and any failure inside the recovery, yields `null` (a 500
for the submission) with the recovery attempted at most once; with the
sheet present the row is appended without touching the header. -/
theorem sheets_append_recovery (env : GoogleEnv) (st : SheetsState)
    (timestamp : String) (d : SubmissionDataRec) (formTitle : String)
    (row : List String)
    (hcfg : (envTruthy env.spreadsheetId || envTruthy env.sheetsId) = true)
    (hrow : buildRowData timestamp d formTitle = .ok row) :
    (st.sheet = none →
      addToGoogleSheets env ⟨none, false, false⟩ st timestamp d formTitle =
        (⟨some [sheetsHeaderRow, row]⟩, some "Submissions!A:I")) ∧
    (∀ faults : SheetsFaults, faults.appendFault = some .otherErr →
      addToGoogleSheets env faults st timestamp d formTitle = (st, none)) ∧
    (st.sheet = none →
      addToGoogleSheets env ⟨none, true, false⟩ st timestamp d formTitle = (st, none)) ∧
    (st.sheet = none →
      addToGoogleSheets env ⟨none, false, true⟩ st timestamp d formTitle =
        (⟨some []⟩, none)) ∧
    (∀ rows, st.sheet = some rows →
      addToGoogleSheets env ⟨none, false, false⟩ st timestamp d formTitle =
        (⟨some (rows ++ [row])⟩, some "Submissions!A:I")) := by
  refine ⟨?_, ?_, ?_, ?_, ?_⟩
  · intro hnone
    simp [addToGoogleSheets, hcfg, hrow, valuesAppend, hnone, addSheetOp,
      valuesBatchWrite, setRowAt]
  · intro faults hf
    simp [addToGoogleSheets, hcfg, hrow, valuesAppend, hf]
  · intro hnone
    simp [addToGoogleSheets, hcfg, hrow, valuesAppend, hnone, addSheetOp]
  · intro hnone
    simp [addToGoogleSheets, hcfg, hrow, valuesAppend, hnone, addSheetOp, valuesBatchWrite]
  · intro rows hrows
    simp [addToGoogleSheets, hcfg, hrow, valuesAppend, hrows]

/-- C4 witness: first submission to a missing sheet creates header+row;
the second appends without re-creating the header; an `otherErr` append
fault is fatal with no recovery. -/
theorem sheets_append_recovery_witness :
    ((envTruthy env0.spreadsheetId || envTruthy env0.sheetsId) = true ∧
      buildRowData "t" demoData "Audit" =
        .ok ["t", "", "", "", "", "", "", "", "Audit"] ∧
      (⟨none⟩ : SheetsState).sheet = none) ∧
    addToGoogleSheets env0 ⟨none, false, false⟩ ⟨none⟩ "t" demoData "Audit" =
      (⟨some [sheetsHeaderRow, ["t", "", "", "", "", "", "", "", "Audit"]]⟩,
       some "Submissions!A:I") ∧
    addToGoogleSheets env0 ⟨none, false, false⟩
        ⟨some [sheetsHeaderRow, ["t", "", "", "", "", "", "", "", "Audit"]]⟩
        "t2" demoData "Audit" =
      (⟨some [sheetsHeaderRow, ["t", "", "", "", "", "", "", "", "Audit"],
              ["t2", "", "", "", "", "", "", "", "Audit"]]⟩,
       some "Submissions!A:I") ∧
    addToGoogleSheets env0 ⟨some .otherErr, false, false⟩ ⟨none⟩ "t" demoData "Audit" =
      (⟨none⟩, none) :=
  ⟨⟨by decide, by decide, rfl⟩,
   (sheets_append_recovery env0 ⟨none⟩ "t" demoData "Audit"
       ["t", "", "", "", "", "", "", "", "Audit"] (by decide) (by decide)).1 rfl,
   (sheets_append_recovery env0
       ⟨some [sheetsHeaderRow, ["t", "", "", "", "", "", "", "", "Audit"]]⟩
       "t2" demoData "Audit" ["t2", "", "", "", "", "", "", "", "Audit"]
       (by decide) (by decide)).2.2.2.2
     [sheetsHeaderRow, ["t", "", "", "", "", "", "", "", "Audit"]] rfl,
   (sheets_append_recovery env0 ⟨none⟩ "t" demoData "Audit"
       ["t", "", "", "", "", "", "", "", "Audit"] (by decide) (by decide)).2.1
     ⟨some .otherErr, false, false⟩ rfl⟩

/-- C3 counterexample: the deployed `POST /submissions` handler skips the
form lookup — with `dbCx` containing only an INACTIVE form "f1", the
request still returns 201 and the row is written, not the claimed 404. -/
theorem post_route_ignores_isActive_cx :
    dbCx.forms.find? (fun f => f.id = "f1" && f.isActive) = none ∧
    POSTroute env0 ⟨none, false, false⟩ ⟨some [sheetsHeaderRow]⟩ "t"
        ⟨"f1", demoData⟩ =
      ⟨⟨some [sheetsHeaderRow, ["t", "", "", "", "", "", "", "", "f1"]]⟩, 201,
        some "Submissions!A:I"⟩ ∧
    (201 : Nat) ≠ 404 := by
  refine ⟨by decide, by decide, by decide⟩

/-- C3 (amended): the variant handler that does look the form up rejects
with 404 — and writes nothing — whenever no form row with the submitted id
is active, so deactivation stops its submissions (stored history is a
separate table it never touches); the deployed route.ts handler performs
no lookup at all and answers only 201 or 500. -/
theorem inactive_form_gating (db : Db) (env : GoogleEnv) (st : SheetsState)
    (timestamp : String) (body : PostBody)
    (hinactive : ∀ f ∈ db.forms, f.id = body.formId → f.isActive = false) :
    POSTvariant db env st timestamp body = ⟨st, 404, none⟩ ∧
    (∀ faults, (POSTroute env faults st timestamp body).status = 201 ∨
      (POSTroute env faults st timestamp body).status = 500) := by
  constructor
  · have hfind : db.forms.find? (fun f => f.id = body.formId && f.isActive) = none := by
      rw [List.find?_eq_none]
      intro f hf
      by_cases hid : f.id = body.formId
      · simp [hid, hinactive f hf hid]
      · simp [hid]
    simp [POSTvariant, hfind]
  · intro faults
    rw [POSTroute]
    cases haddr : addToGoogleSheets env faults st timestamp body.data
        (if body.formId = "" then "Form Submission" else body.formId) with
    | mk st' r =>
      cases r <;> simp [haddr]

/-- C3 witness: the inactive form of `dbCx` makes the variant handler
return 404 with the sheet untouched. -/
theorem inactive_form_gating_witness :
    (∀ f ∈ dbCx.forms, f.id = "f1" → f.isActive = false) ∧
    POSTvariant dbCx env0 ⟨some [sheetsHeaderRow]⟩ "t" ⟨"f1", demoData⟩ =
      ⟨⟨some [sheetsHeaderRow]⟩, 404, none⟩ :=
  ⟨by decide,
   (inactive_form_gating dbCx env0 ⟨some [sheetsHeaderRow]⟩ "t" ⟨"f1", demoData⟩
       (by decide)).1⟩

/-- C9: a stored submission is reachable through the authenticated listing
(for some choice of the `formId` query) exactly when the caller is its
author, the owner of its form, or an administrator; in particular an
unrelated authenticated user can never obtain it. -/
theorem submissions_read_scope (db : Db) (u : Caller) (sub : SubmissionRow)
    (form : FormRec) (hsub : sub ∈ db.submissions) (hform : form ∈ db.forms)
    (hfid : form.id = sub.formId)
    (huniq : ∀ f ∈ db.forms, f.id = sub.formId → f.createdById = form.createdById) :
    canSee db u sub ↔
      (sub.userId = some u.id ∨ form.createdById = u.id ∨ u.role = "ADMIN") := by
  constructor
  · rintro ⟨q, l, hget, hmem⟩
    cases q with
    | none =>
      rw [GETsubmissions] at hget
      simp only [Except.ok.injEq] at hget
      subst hget
      rw [List.mem_filter] at hmem
      obtain ⟨-, hcond⟩ := hmem
      simp only [formOwnedBy, List.any_eq_true, Bool.or_eq_true, Bool.and_eq_true,
        decide_eq_true_eq] at hcond
      rcases hcond with h | ⟨f, hf, hfid2, hcreated⟩
      · exact Or.inl h
      · exact Or.inr (Or.inl ((huniq f hf hfid2) ▸ hcreated))
    | some fid =>
      rw [GETsubmissions] at hget
      cases hfind : db.forms.find? (fun f => f.id = fid &&
          (f.createdById = u.id || u.role = "ADMIN")) with
      | none => rw [hfind] at hget; simp at hget
      | some f0 =>
        rw [hfind] at hget
        simp only [Except.ok.injEq] at hget
        subst hget
        rw [List.mem_filter] at hmem
        obtain ⟨-, hfidmem⟩ := hmem
        have hsubfid : sub.formId = fid := of_decide_eq_true hfidmem
        have hp := List.find?_some hfind
        simp only [Bool.and_eq_true, Bool.or_eq_true, decide_eq_true_eq] at hp
        obtain ⟨hid0, hp2⟩ := hp
        rcases hp2 with hown | hadmin
        · refine Or.inr (Or.inl ?_)
          have hmem0 := List.mem_of_find?_eq_some hfind
          have := huniq f0 hmem0 (by rw [hid0, hsubfid])
          rw [← this, hown]
        · exact Or.inr (Or.inr hadmin)
  · intro h
    rcases h with hauth | hown | hadmin
    · refine ⟨none, _, rfl, List.mem_filter.mpr ⟨hsub, ?_⟩⟩
      simp [hauth]
    · refine ⟨none, _, rfl, List.mem_filter.mpr ⟨hsub, ?_⟩⟩
      simp only [formOwnedBy, List.any_eq_true, Bool.or_eq_true, Bool.and_eq_true,
        decide_eq_true_eq]
      exact Or.inr ⟨form, hform, hfid, hown⟩
    · have hexists : ∃ f ∈ db.forms, (fun f : FormRec => f.id = sub.formId &&
          (f.createdById = u.id || u.role = "ADMIN")) f = true :=
        ⟨form, hform, by simp [hfid, hadmin]⟩
      have hisSome : (db.forms.find? (fun f => f.id = sub.formId &&
          (f.createdById = u.id || u.role = "ADMIN"))).isSome = true := by
        rw [List.find?_isSome]
        exact hexists
      obtain ⟨f0, hfind⟩ := Option.isSome_iff_exists.mp hisSome
      refine ⟨some sub.formId, db.submissions.filter (fun s => s.formId = sub.formId),
        ?_, ?_⟩
      · rw [GETsubmissions, hfind]
      · exact List.mem_filter.mpr ⟨hsub, by simp⟩

/-- C9 witness: in `db1` the owner, the author and an admin can each reach
the submission, while a stranger cannot. -/
theorem submissions_read_scope_witness :
    (sub1 ∈ db1.submissions ∧ form1 ∈ db1.forms ∧ form1.id = sub1.formId) ∧
    canSee db1 ⟨"owner-1", "USER"⟩ sub1 ∧
    canSee db1 ⟨"author-1", "USER"⟩ sub1 ∧
    canSee db1 ⟨"root", "ADMIN"⟩ sub1 ∧
    ¬ canSee db1 ⟨"stranger", "USER"⟩ sub1 :=
  ⟨⟨by decide, by decide, by decide⟩,
   (submissions_read_scope db1 ⟨"owner-1", "USER"⟩ sub1 form1
       (by decide) (by decide) (by decide) (by decide)).mpr (Or.inr (Or.inl rfl)),
   (submissions_read_scope db1 ⟨"author-1", "USER"⟩ sub1 form1
       (by decide) (by decide) (by decide) (by decide)).mpr (Or.inl rfl),
   (submissions_read_scope db1 ⟨"root", "ADMIN"⟩ sub1 form1
       (by decide) (by decide) (by decide) (by decide)).mpr (Or.inr (Or.inr rfl)),
   fun h => by
     have hd := (submissions_read_scope db1 ⟨"stranger", "USER"⟩ sub1 form1
       (by decide) (by decide) (by decide) (by decide)).mp h
     revert hd
     decide⟩

/-- A non-empty string has length at least one. -/
theorem length_not_lt_one_of_ne_empty (s : String) (h : s ≠ "") : ¬ s.length < 1 := by
  cases s with
  | mk data =>
    cases data with
    | nil => exact absurd rfl h
    | cons c cs =>
      simp [String.length]

/-- A field whose schema derives, holding a value satisfying the amended
per-field rule, passes the code's per-field zod schema. -/
theorem validateField_none_of_amended (emailOk : String → Bool)
    (toNum : String → Option Rat) (hE : ∀ s, emailOk s = true → s ≠ "")
    (f : FormFieldDef) (v : Option FieldValue)
    (hck : fieldSchemaThrows f = false)
    (h : amendedFieldOk emailOk toNum f v = true) :
    validateField emailOk toNum f v = .ok none := by
  rcases f with ⟨fid, ftype, flabel, freq, fmult⟩
  cases ftype with
  | email =>
    cases freq with
    | true =>
      cases v with
      | none => simp [amendedFieldOk, claimFieldOk] at h
      | some w =>
        cases w with
        | str s =>
          simp [amendedFieldOk, claimFieldOk] at h
          simp [validateField, h, length_not_lt_one_of_ne_empty s (hE s h)]
        | strs xs => simp [amendedFieldOk, claimFieldOk] at h
        | bool b => simp [amendedFieldOk, claimFieldOk] at h
    | false =>
      cases v with
      | none => simp [validateField]
      | some w =>
        cases w with
        | str s =>
          simp [amendedFieldOk, claimFieldOk] at h
          simp [validateField, h]
        | strs xs => simp [amendedFieldOk, claimFieldOk] at h
        | bool b => simp [amendedFieldOk, claimFieldOk] at h
  | number =>
    cases freq with
    | true =>
      cases v with
      | none => simp [amendedFieldOk] at h
      | some w =>
        cases w with
        | str s =>
          simp [amendedFieldOk] at h
          obtain ⟨hne, hq⟩ := h
          cases htn : toNum s with
          | none => rw [htn] at hq; simp at hq
          | some q =>
            rw [htn] at hq
            simp only [decide_eq_true_eq] at hq
            simp [validateField, coerceNum, htn, not_lt.mpr hq]
        | strs xs => simp [amendedFieldOk] at h
        | bool b => simp [amendedFieldOk] at h
    | false =>
      cases v with
      | none => simp [validateField]
      | some w =>
        simp [amendedFieldOk, claimFieldOk] at h
        cases htn : coerceNum toNum (some w) with
        | none => rw [htn] at h; simp at h
        | some q => simp [validateField, htn]
  | checkbox =>
    cases freq with
    | true =>
      cases fmult with
      | true => simp [fieldSchemaThrows] at hck
      | false =>
        cases v with
        | none => simp [amendedFieldOk, claimFieldOk] at h
        | some w =>
          cases w with
          | bool b =>
            simp [amendedFieldOk, claimFieldOk] at h
            simp [validateField, h]
          | str s => simp [amendedFieldOk, claimFieldOk] at h
          | strs xs => simp [amendedFieldOk, claimFieldOk] at h
    | false =>
      cases fmult with
      | true =>
        cases v with
        | none => simp [validateField]
        | some w =>
          cases w with
          | strs xs => simp [validateField]
          | str s => simp [amendedFieldOk, claimFieldOk] at h
          | bool b => simp [amendedFieldOk, claimFieldOk] at h
      | false =>
        cases v with
        | none => simp [validateField]
        | some w =>
          cases w with
          | bool b => simp [validateField]
          | str s => simp [amendedFieldOk, claimFieldOk] at h
          | strs xs => simp [amendedFieldOk, claimFieldOk] at h
  | text =>
    cases freq with
    | true =>
      cases v with
      | none => simp [amendedFieldOk, claimFieldOk] at h
      | some w =>
        cases w with
        | str s =>
          simp [amendedFieldOk, claimFieldOk] at h
          simp [validateField, length_not_lt_one_of_ne_empty s h]
        | strs xs => simp [amendedFieldOk, claimFieldOk] at h
        | bool b => simp [amendedFieldOk, claimFieldOk] at h
    | false =>
      cases v with
      | none => simp [validateField]
      | some w =>
        cases w with
        | str s => simp [validateField]
        | strs xs => simp [amendedFieldOk, claimFieldOk] at h
        | bool b => simp [amendedFieldOk, claimFieldOk] at h
  | textarea =>
    cases freq with
    | true =>
      cases v with
      | none => simp [amendedFieldOk, claimFieldOk] at h
      | some w =>
        cases w with
        | str s =>
          simp [amendedFieldOk, claimFieldOk] at h
          simp [validateField, length_not_lt_one_of_ne_empty s h]
        | strs xs => simp [amendedFieldOk, claimFieldOk] at h
        | bool b => simp [amendedFieldOk, claimFieldOk] at h
    | false =>
      cases v with
      | none => simp [validateField]
      | some w =>
        cases w with
        | str s => simp [validateField]
        | strs xs => simp [amendedFieldOk, claimFieldOk] at h
        | bool b => simp [amendedFieldOk, claimFieldOk] at h
  | select =>
    cases freq with
    | true =>
      cases v with
      | none => simp [amendedFieldOk, claimFieldOk] at h
      | some w =>
        cases w with
        | str s =>
          simp [amendedFieldOk, claimFieldOk] at h
          simp [validateField, length_not_lt_one_of_ne_empty s h]
        | strs xs => simp [amendedFieldOk, claimFieldOk] at h
        | bool b => simp [amendedFieldOk, claimFieldOk] at h
    | false =>
      cases v with
      | none => simp [validateField]
      | some w =>
        cases w with
        | str s => simp [validateField]
        | strs xs => simp [amendedFieldOk, claimFieldOk] at h
        | bool b => simp [amendedFieldOk, claimFieldOk] at h
  | radio =>
    cases freq with
    | true =>
      cases v with
      | none => simp [amendedFieldOk, claimFieldOk] at h
      | some w =>
        cases w with
        | str s =>
          simp [amendedFieldOk, claimFieldOk] at h
          simp [validateField, length_not_lt_one_of_ne_empty s h]
        | strs xs => simp [amendedFieldOk, claimFieldOk] at h
        | bool b => simp [amendedFieldOk, claimFieldOk] at h
    | false =>
      cases v with
      | none => simp [validateField]
      | some w =>
        cases w with
        | str s => simp [validateField]
        | strs xs => simp [amendedFieldOk, claimFieldOk] at h
        | bool b => simp [amendedFieldOk, claimFieldOk] at h
  | file =>
    cases freq with
    | true =>
      cases v with
      | none => simp [amendedFieldOk, claimFieldOk] at h
      | some w =>
        cases w with
        | str s =>
          simp [amendedFieldOk, claimFieldOk] at h
          simp [validateField, length_not_lt_one_of_ne_empty s h]
        | strs xs => simp [amendedFieldOk, claimFieldOk] at h
        | bool b => simp [amendedFieldOk, claimFieldOk] at h
    | false =>
      cases v with
      | none => simp [validateField]
      | some w =>
        cases w with
        | str s => simp [validateField]
        | strs xs => simp [amendedFieldOk, claimFieldOk] at h
        | bool b => simp [amendedFieldOk, claimFieldOk] at h
  | date =>
    cases freq with
    | true =>
      cases v with
      | none => simp [amendedFieldOk, claimFieldOk] at h
      | some w =>
        cases w with
        | str s =>
          simp [amendedFieldOk, claimFieldOk] at h
          simp [validateField, length_not_lt_one_of_ne_empty s h]
        | strs xs => simp [amendedFieldOk, claimFieldOk] at h
        | bool b => simp [amendedFieldOk, claimFieldOk] at h
    | false =>
      cases v with
      | none => simp [validateField]
      | some w =>
        cases w with
        | str s => simp [validateField]
        | strs xs => simp [amendedFieldOk, claimFieldOk] at h
        | bool b => simp [amendedFieldOk, claimFieldOk] at h

/-- Every required field whose schema derives rejects an absent value
with some message. -/
theorem validateField_missing (emailOk : String → Bool) (toNum : String → Option Rat)
    (f : FormFieldDef) (hck : fieldSchemaThrows f = false) (h : f.required = true) :
    ∃ m, validateField emailOk toNum f none = .ok (some m) := by
  rcases f with ⟨fid, ftype, flabel, freq, fmult⟩
  simp only at h
  subst h
  cases ftype <;> cases fmult <;>
    simp_all [fieldSchemaThrows, validateField, coerceNum]

/-- When every field of the list passes, the validator returns the empty
error list. -/
theorem validateFields_ok_nil (emailOk : String → Bool) (toNum : String → Option Rat)
    (l : List FormFieldDef) (record : String → Option FieldValue)
    (h : ∀ f ∈ l, validateField emailOk toNum f (record f.id) = .ok none) :
    validateFields emailOk toNum l record = .ok [] := by
  induction l with
  | nil => rfl
  | cons x rest ih =>
    rw [validateFields, h x (List.mem_cons_self x rest),
      ih (fun f hf => h f (List.mem_cons_of_mem _ hf))]
    rfl

/-- When, over a list with distinct ids, exactly the field with one id
fails (with message `m`) and every other field passes, the validator
returns that single keyed error. -/
theorem validateFields_ok_single (emailOk : String → Bool) (toNum : String → Option Rat)
    (l : List FormFieldDef) (record : String → Option FieldValue)
    (f₀ : FormFieldDef) (m : String)
    (hmem : f₀ ∈ l) (hnodup : (l.map (·.id)).Nodup)
    (hga : validateField emailOk toNum f₀ (record f₀.id) = .ok (some m))
    (hgn : ∀ x ∈ l, x.id ≠ f₀.id →
      validateField emailOk toNum x (record x.id) = .ok none) :
    validateFields emailOk toNum l record = .ok [(f₀.id, m)] := by
  induction l with
  | nil => cases hmem
  | cons x rest ih =>
    rw [List.map_cons, List.nodup_cons] at hnodup
    obtain ⟨hxnot, hnodup2⟩ := hnodup
    rcases List.mem_cons.mp hmem with rfl | hmem2
    · have hrest : validateFields emailOk toNum rest record = .ok [] := by
        apply validateFields_ok_nil
        intro y hy
        apply hgn y (List.mem_cons_of_mem _ hy)
        intro heq
        exact hxnot (heq ▸ List.mem_map_of_mem (fun z => z.id) hy)
      rw [validateFields, hga, hrest]
      rfl
    · have hxa : x.id ≠ f₀.id := by
        intro heq
        exact hxnot (heq ▸ List.mem_map_of_mem (fun z => z.id) hmem2)
      rw [validateFields, hgn x (List.mem_cons_self x rest) hxa,
        ih hmem2 hnodup2 (fun y hy hne => hgn y (List.mem_cons_of_mem _ hy) hne)]
      rfl

/-- C8 (amended): provided no field is a required multiple-checkbox (whose
schema derivation throws a TypeError, so no validator exists at all),
fields validate independently with at most one message per failing field
keyed by its id; a record satisfying every field's required/type rule —
with required number fields additionally coercing to at least 1, as the
min(1) requiredness encoding demands — validates with zero errors, and
removing any single required field's value yields exactly one error,
keyed by that field's id. -/
theorem field_validator_scope (emailOk : String → Bool) (toNum : String → Option Rat)
    (fields : List FormFieldDef) (record : String → Option FieldValue)
    (hE : ∀ s, emailOk s = true → s ≠ "")
    (hnodup : (fields.map (·.id)).Nodup)
    (hck : ∀ f ∈ fields, fieldSchemaThrows f = false)
    (hok : amendedRecordOk emailOk toNum fields record = true) :
    validateFields emailOk toNum fields record = .ok [] ∧
    ∀ f ∈ fields, f.required = true →
      ∃ m, validateFields emailOk toNum fields (removeKey record f.id) =
        .ok [(f.id, m)] := by
  have hokAll := List.all_eq_true.mp hok
  constructor
  · apply validateFields_ok_nil
    intro f hf
    exact validateField_none_of_amended emailOk toNum hE f _ (hck f hf) (hokAll f hf)
  · intro f hf hreq
    obtain ⟨m, hm⟩ := validateField_missing emailOk toNum f (hck f hf) hreq
    refine ⟨m, ?_⟩
    apply validateFields_ok_single emailOk toNum fields _ f m hf hnodup
    · have hnone : removeKey record f.id f.id = none := by
        simp [removeKey]
      rw [hnone, hm]
    · intro x hx hne
      have hkeep : removeKey record f.id x.id = record x.id := by
        simp [removeKey, hne]
      rw [hkeep]
      exact validateField_none_of_amended emailOk toNum hE x _ (hck x hx) (hokAll x hx)

/-- C8 witness: a two-field schema (required text, required number ≥ 1)
validates cleanly, and removing either required value yields exactly the
one matching error. -/
theorem field_validator_scope_witness :
    ((fieldsW.map (·.id)).Nodup ∧
      (∀ f ∈ fieldsW, fieldSchemaThrows f = false) ∧
      amendedRecordOk demoEmailOk demoToNum fieldsW recordW = true) ∧
    (validateFields demoEmailOk demoToNum fieldsW recordW = .ok [] ∧
      ∀ f ∈ fieldsW, f.required = true →
        ∃ m, validateFields demoEmailOk demoToNum fieldsW (removeKey recordW f.id) =
          .ok [(f.id, m)]) :=
  ⟨⟨by decide, by decide, by decide⟩,
   field_validator_scope demoEmailOk demoToNum fieldsW recordW
     (fun s h hs => by subst hs; revert h; decide) (by decide) (by decide) (by decide)⟩

/-- C8 counterexample: two records satisfying the claim's stated rules on
which the claim fails — the well-formed numeric input "0" on a required
number field is rejected (the min(1) requiredness encoding), and a
one-element selection on a required multiple-checkbox field never
validates because the schema derivation itself throws. -/
theorem field_validator_claim_cx :
    claimRecordOk demoEmailOk demoToNum cxFields cxRecord = true ∧
    validateFields demoEmailOk demoToNum cxFields cxRecord =
      .ok [("qty", "This field is required")] ∧
    validateFields demoEmailOk demoToNum cxFields cxRecord ≠ .ok [] ∧
    claimRecordOk demoEmailOk demoToNum cxFieldsCk cxRecordCk = true ∧
    validateFields demoEmailOk demoToNum cxFieldsCk cxRecordCk = .error () := by
  refine ⟨by decide, by decide, by decide, by decide, by decide⟩
